import Mathlib

/-!
Verification of the locutus core: the transaction registry
(`crates/locutus-node/src/node/op_state.rs`) and the in-memory connection
manager / transport (`crates/locutus-node/src/conn_manager/in_memory.rs`),
shallowly embedded in Lean 4.

Carrier types (`Transaction`, `Operation` payloads, `Message`, `PeerKey`,
`Location`) are declared outside the two given source files; they are
modelled from the spec's data model (section 3). All operational code
(`push`, `pop`, `send`, the polling tasks) is translated directly from the
Rust source.
-/

/-- Modelled from the spec: the kind tag of a transaction.
Source enum `TransactionTypeId` with variants `JoinRing | Put | Get | Canceled`. -/
inductive TransactionTypeId where
  | JoinRing
  | Put
  | Get
  | Canceled
deriving DecidableEq, Repr

/-- Modelled from the spec: `Transaction = \x7bid: unique opaque identifier,
kind: JoinRing | Put | Get | Canceled\x7d`, immutable once created. -/
structure Transaction where
  id : Nat
  ty : TransactionTypeId
deriving DecidableEq, Repr

/-- Source method `Transaction::tx_type()`: the transaction's declared kind. -/
def Transaction.tx_type (t : Transaction) : TransactionTypeId := t.ty

/-- Modelled from the spec: opaque per-transaction progress state of a
join-ring operation (a collaborator; its internals are out of scope). -/
structure JoinRingOp where
  state : Nat
deriving DecidableEq, Repr

/-- Modelled from the spec: opaque progress state of a put operation. -/
structure PutOp where
  state : Nat
deriving DecidableEq, Repr

/-- Modelled from the spec: opaque progress state of a get operation. -/
structure GetOp where
  state : Nat
deriving DecidableEq, Repr

/-- Source enum `Operation`: tagged union over the three operation kinds. -/
inductive Operation where
  | JoinRing : JoinRingOp → Operation
  | Put : PutOp → Operation
  | Get : GetOp → Operation
deriving DecidableEq, Repr

/-- The kind a given `Operation` variant corresponds to (spec side: "op's
variant kind"); used to state kind/variant agreement. -/
def opKind : Operation → TransactionTypeId
  | .JoinRing _ => .JoinRing
  | .Put _ => .Put
  | .Get _ => .Get

/-- Source enum `OpExecutionError` (`op_state.rs`). -/
inductive OpExecutionError where
  | IncorrectTxType : TransactionTypeId → TransactionTypeId → OpExecutionError
  | TxUpdateFailure : Transaction → OpExecutionError
deriving DecidableEq, Repr

/-- A Rust panic (`todo!()` / `panic!()`): the computation aborts instead of
returning a value. -/
inductive RustPanic where
  | panicked
deriving DecidableEq, Repr

/-- `std::collections::HashMap` over `Transaction` keys, as a function;
`insert` overwrites any previous entry. -/
def hmInsert {α : Type} (m : Transaction → Option α) (k : Transaction) (v : α) :
    Transaction → Option α :=
  fun x => if x = k then some v else m x

/-- `HashMap::remove`: the removed value (if any) together with the map
without the key. -/
def hmRemove {α : Type} (m : Transaction → Option α) (k : Transaction) :
    Option α × (Transaction → Option α) :=
  (m k, fun x => if x = k then none else m x)

/-- Source struct `OpStateStorage` (`op_state.rs`): three per-kind maps of
in-flight operations keyed by transaction. The `ring` field is an out-of-scope
collaborator and is omitted. -/
structure OpStateStorage where
  join_ring : Transaction → Option JoinRingOp
  put : Transaction → Option PutOp
  get : Transaction → Option GetOp

/-- `OpStateStorage::new`: all three maps empty. -/
def OpStateStorage.new : OpStateStorage :=
  ⟨fun _ => none, fun _ => none, fun _ => none⟩

/-- Source `OpStateStorage::push` (`op_state.rs` lines 37–53), translated
branch by branch. The `check_id_op!` macro expands to: if the id's kind does
not match the checked variant, return
`Err(IncorrectTxType(TransactionTypeId::JoinRing, id.tx_type()))` — the
first (expected) component is hard-coded to `JoinRing` in the macro body.
The `Operation::Get` arm checks the id's kind against `TransactionTypeId::Put`
(as the source does). Rust signature `push(&mut self, id, op) -> Result<(),
OpExecutionError>` becomes a result paired with the post state. -/
def OpStateStorage.push (s : OpStateStorage) (id : Transaction) (op : Operation) :
    Except OpExecutionError Unit × OpStateStorage :=
  match op with
  | .JoinRing tx =>
      if id.tx_type = TransactionTypeId.JoinRing then
        (.ok (), { s with join_ring := hmInsert s.join_ring id tx })
      else
        (.error (.IncorrectTxType .JoinRing id.tx_type), s)
  | .Put tx =>
      if id.tx_type = TransactionTypeId.Put then
        (.ok (), { s with put := hmInsert s.put id tx })
      else
        (.error (.IncorrectTxType .JoinRing id.tx_type), s)
  | .Get tx =>
      if id.tx_type = TransactionTypeId.Put then
        (.ok (), { s with get := hmInsert s.get id tx })
      else
        (.error (.IncorrectTxType .JoinRing id.tx_type), s)

/-- Source `OpStateStorage::pop` (`op_state.rs` lines 55–62): dispatch on the
id's kind, remove from the corresponding map; the `Canceled` arm is
`todo!()`, i.e. a panic. -/
def OpStateStorage.pop (s : OpStateStorage) (id : Transaction) :
    Except RustPanic (Option Operation × OpStateStorage) :=
  match id.tx_type with
  | .JoinRing =>
      let r := hmRemove s.join_ring id
      .ok (r.1.map Operation.JoinRing, { s with join_ring := r.2 })
  | .Put =>
      let r := hmRemove s.put id
      .ok (r.1.map Operation.Put, { s with put := r.2 })
  | .Get =>
      let r := hmRemove s.get id
      .ok (r.1.map Operation.Get, { s with get := r.2 })
  | .Canceled => .error .panicked

/-- The value component of `pop` (what the caller observes). -/
def popVal (s : OpStateStorage) (id : Transaction) :
    Except RustPanic (Option Operation) :=
  (s.pop id).map Prod.fst

/-- The registry state after a `pop` (unchanged if `pop` panicked). -/
def popNext (s : OpStateStorage) (id : Transaction) : OpStateStorage :=
  match s.pop id with
  | .ok (_, s2) => s2
  | .error _ => s

/-- Modelled from the spec: opaque, stable, comparable identity of a peer. -/
structure PeerKey where
  key : Nat
deriving DecidableEq, Repr

/-- Modelled from the spec: a coordinate in the ring's cyclic space. The
claims never compute with coordinates, so it is kept opaque. -/
structure Location where
  pos : Nat
deriving DecidableEq, Repr

/-- Modelled from the spec: a peer reference with possibly-unresolved
position, used as a message destination. -/
structure PeerKeyLocation where
  peer : PeerKey
  location : Option Location
deriving DecidableEq, Repr

/-- Modelled from the spec: `Message = \x7btransaction, payload variant\x7d`;
the payload is opaque to the transport, so it is a single number here. -/
structure Message where
  transaction : Transaction
  payload : Nat
deriving DecidableEq, Repr

/-- Source enum `ConnError` (per spec section 7 taxonomy; its declaration is
outside the two given files). -/
inductive ConnError where
  | LocationUnknown
  | TransportClosed
  | SerializationFailure
deriving DecidableEq, Repr

/-- Numeric tag of a transaction kind, for the wire encoding. -/
def tyCode : TransactionTypeId → Nat
  | .JoinRing => 0
  | .Put => 1
  | .Get => 2
  | .Canceled => 3

/-- Inverse of `tyCode`. -/
def tyOfCode : Nat → Option TransactionTypeId
  | 0 => some .JoinRing
  | 1 => some .Put
  | 2 => some .Get
  | 3 => some .Canceled
  | _ => none

/-- `bincode::serialize` on a `Message`: a self-describing injective byte
encoding, modelled concretely; it never fails on these plain values. -/
def encode (m : Message) : List Nat :=
  [m.transaction.id, tyCode m.transaction.ty, m.payload]

/-- `bincode::deserialize` on a `Message` encoding. -/
def decode : List Nat → Option Message
  | [a, b, c] => (tyOfCode b).map fun ty => ⟨⟨a, ty⟩, c⟩
  | _ => none

/-- Source struct `MessageOnTransit` (`in_memory.rs`): the wire envelope. -/
structure MessageOnTransit where
  origin : PeerKey
  origin_loc : Option Location
  target : PeerKey
  data : List Nat
deriving DecidableEq, Repr

/-- The shared `NETWORK_WIRES` crossbeam channel: a FIFO queue of envelopes,
a connectedness flag, and an optional capacity bound (crossbeam channels can
be bounded; `NETWORK_WIRES` itself is created unbounded, `capacity = none`). -/
structure Fabric where
  queue : List MessageOnTransit
  connected : Bool
  capacity : Option Nat
deriving DecidableEq, Repr

/-- Result of `crossbeam::channel::Sender::try_send`. -/
inductive TrySendResult where
  | sent
  | full
  | disconnected
deriving DecidableEq, Repr

/-- `Sender::try_send`: fails with `Disconnected` on a closed channel, with
`Full` on a bounded channel at capacity, otherwise appends the envelope. -/
def trySend (f : Fabric) (e : MessageOnTransit) : TrySendResult × Fabric :=
  if f.connected = false then (.disconnected, f)
  else
    match f.capacity with
    | some c =>
        if c ≤ f.queue.length then (.full, f)
        else (.sent, { f with queue := f.queue ++ [e] })
    | none => (.sent, { f with queue := f.queue ++ [e] })

/-- Source struct `InMemoryTransport` (`in_memory.rs`): the per-peer endpoint
state (its queues and channel handle live in the `World` below). -/
structure InMemoryTransport where
  interface_peer : PeerKey
  location : Option Location
  is_open : Bool
deriving DecidableEq, Repr

/-- What a call to `MemoryConnManager::send` does from the caller's point of
view: returns normally, returns a `ConnError`, or panics. -/
inductive SendOutcome where
  | ok
  | connErr : ConnError → SendOutcome
  | panicked
deriving DecidableEq, Repr

/-- Source `InMemoryTransport::send` (`in_memory.rs` lines 139–156): builds
the envelope with `origin = self.interface_peer`, `origin_loc =
Some(location)` — `location` being the second PARAMETER of the call, not
`self.location` — and `try_send`s it. On `Disconnected` it only logs and
returns normally; on `Full` it logs and `panic!()`s. -/
def InMemoryTransport.send (tr : InMemoryTransport) (peer : PeerKey)
    (location : Location) (message : List Nat) (f : Fabric) :
    SendOutcome × Fabric :=
  let e : MessageOnTransit :=
    ⟨tr.interface_peer, some location, peer, message⟩
  match trySend f e with
  | (.disconnected, f2) => (.ok, f2)
  | (.full, f2) => (.panicked, f2)
  | (.sent, f2) => (.ok, f2)

/-- Source `MemoryConnManager::send` (`in_memory.rs` lines 69–77):
serializes the message, then resolves `target.location` (failing with
`ConnError::LocationUnknown` when it is `None`), then calls
`self.transport.send(target.peer, location, msg)` and returns `Ok(())`. -/
def connSend (tr : InMemoryTransport) (target : PeerKeyLocation)
    (msg : Message) (f : Fabric) : SendOutcome × Fabric :=
  let data := encode msg
  match target.location with
  | none => (.connErr .LocationUnknown, f)
  | some loc => tr.send target.peer loc data f

/-- The state of the whole simulated network: the shared fabric, each peer's
`msg_stack_queue` (the transport-level inbound stack filled by the filter
task) and each peer's `msg_queue` (the decoded messages `recv` consumes).
Both Rust queues are `Vec`s used with `push`/`pop`, i.e. stacks; the list
head models the top. -/
structure World where
  fabric : Fabric
  msg_stack_queue : PeerKey → List MessageOnTransit
  msg_queue : PeerKey → List Message

/-- One iteration of peer `p`'s filter task (`InMemoryTransport::new`,
`in_memory.rs` lines 110–128): `try_recv` one envelope from the shared
channel; if its target is `p`, push it onto `p`'s stack; otherwise the
envelope is dropped (the channel hands each envelope to exactly one
receiver and non-matching envelopes are not requeued). An empty channel is
a no-op iteration. -/
def filterStep (p : PeerKey) (w : World) : World :=
  match w.fabric.queue with
  | [] => w
  | e :: rest =>
      if e.target = p then
        { w with
          fabric := { w.fabric with queue := rest },
          msg_stack_queue := fun q => if q = p then e :: w.msg_stack_queue q else w.msg_stack_queue q }
      else
        { w with fabric := { w.fabric with queue := rest } }

/-- One iteration of peer `p`'s drain task (`MemoryConnManager::new`,
`in_memory.rs` lines 32–46): pop one envelope from `p`'s stack, deserialize
it and push the message onto `p`'s decoded queue. Deserialization is
`.unwrap()`ed in the source; an undecodable envelope (unreachable for
envelopes produced by `connSend`) is consumed without effect here. -/
def drainStep (p : PeerKey) (w : World) : World :=
  match w.msg_stack_queue p with
  | [] => w
  | e :: rest =>
      match decode e.data with
      | some m =>
          { w with
            msg_stack_queue := fun q => if q = p then rest else w.msg_stack_queue q,
            msg_queue := fun q => if q = p then m :: w.msg_queue q else w.msg_queue q }
      | none =>
          { w with msg_stack_queue := fun q => if q = p then rest else w.msg_stack_queue q }

/-- One successful `MemoryConnManager::recv` call by peer `p`
(`in_memory.rs` lines 57–67): pop the top of `p`'s decoded queue (that
popped message is the value `recv` returns); with an empty queue `recv`
keeps polling, a no-op here. -/
def recvStep (p : PeerKey) (w : World) : World :=
  match w.msg_queue p with
  | [] => w
  | _ :: rest => { w with msg_queue := fun q => if q = p then rest else w.msg_queue q }

/-- A scheduling of the background tasks and `recv` callers: at each point
one peer's filter task, drain task or `recv` call runs one iteration. -/
inductive Step where
  | filter : PeerKey → Step
  | drain : PeerKey → Step
  | recv : PeerKey → Step

/-- Run one scheduled iteration. -/
def applyStep (st : Step) (w : World) : World :=
  match st with
  | .filter p => filterStep p w
  | .drain p => drainStep p w
  | .recv p => recvStep p w

/-- Run a whole schedule, left to right. -/
def runSched (sched : List Step) (w : World) : World :=
  sched.foldl (fun w2 st => applyStep st w2) w

/-! Concrete inputs used by witnesses and counterexamples. -/

/-- A join-ring-kind transaction. -/
def tJR : Transaction := ⟨1, .JoinRing⟩

/-- A put-kind transaction. -/
def tPut : Transaction := ⟨2, .Put⟩

/-- A get-kind transaction. -/
def tGet : Transaction := ⟨3, .Get⟩

/-- A canceled-kind transaction. -/
def tCan : Transaction := ⟨4, .Canceled⟩

/-- A join-ring operation value. -/
def aJR : Operation := .JoinRing ⟨11⟩

/-- A put operation value. -/
def aPut : Operation := .Put ⟨22⟩

/-- A get operation value. -/
def aGet : Operation := .Get ⟨33⟩

/-- Claim C1: the spec says `push(id, op)` fails with
`IncorrectTxType(expected, actual)` — `expected` being `op`'s variant kind —
exactly when `id`'s kind disagrees with `op`'s variant, and succeeds
otherwise. The code diverges three ways at concrete inputs: a `Get`
operation under a `Get`-kind id (kinds agree) is rejected; a `Get` operation
under a `Put`-kind id (kinds disagree) is accepted; and a rejected `Put`
operation reports `expected = JoinRing` instead of its own variant kind. -/
theorem push_kind_check_diverges :
    tGet.tx_type = opKind aGet
    ∧ (OpStateStorage.new.push tGet aGet).1
        = .error (.IncorrectTxType .JoinRing .Get)
    ∧ (OpStateStorage.new.push tPut aGet).1 = .ok ()
    ∧ (OpStateStorage.new.push tGet aPut).1
        = .error (.IncorrectTxType .JoinRing .Get) :=
  ⟨rfl, rfl, rfl, rfl⟩

/-- Claim C2: for distinct transactions of different kinds whose operations
match their kinds, when both pushes succeed, popping each id returns exactly
the operation pushed under it (isolation). -/
theorem push_push_pop_isolation (t1 t2 : Transaction) (A B : Operation)
    (s0 s1 s2 : OpStateStorage)
    (hne : t1 ≠ t2) (hk : t1.tx_type ≠ t2.tx_type)
    (hA : opKind A = t1.tx_type) (hB : opKind B = t2.tx_type)
    (h1 : s0.push t1 A = (.ok (), s1)) (h2 : s1.push t2 B = (.ok (), s2)) :
    popVal s2 t1 = .ok (some A) ∧ popVal (popNext s2 t1) t2 = .ok (some B) := by
  obtain ⟨i1, k1⟩ := t1
  obtain ⟨i2, k2⟩ := t2
  simp only [Transaction.tx_type, opKind] at hA hB hk
  cases A with
  | Get a =>
      subst hA
      simp [OpStateStorage.push, Transaction.tx_type] at h1
  | JoinRing a =>
      subst hA
      cases B with
      | JoinRing b => subst hB; exact absurd rfl hk
      | Get b =>
          subst hB
          simp [OpStateStorage.push, Transaction.tx_type] at h2
      | Put b =>
          subst hB
          simp only [OpStateStorage.push, Transaction.tx_type, reduceIte,
            Prod.mk.injEq, true_and] at h1 h2
          subst h1
          subst h2
          simp [popVal, popNext, OpStateStorage.pop, Transaction.tx_type,
            hmRemove, hmInsert, Except.map]
  | Put a =>
      subst hA
      cases B with
      | Put b => subst hB; exact absurd rfl hk
      | Get b =>
          subst hB
          simp [OpStateStorage.push, Transaction.tx_type] at h2
      | JoinRing b =>
          subst hB
          simp only [OpStateStorage.push, Transaction.tx_type, reduceIte,
            Prod.mk.injEq, true_and] at h1 h2
          subst h1
          subst h2
          simp [popVal, popNext, OpStateStorage.pop, Transaction.tx_type,
            hmRemove, hmInsert, Except.map]

/-- Registry after pushing `aJR` under `tJR` into an empty registry. -/
def sIso1 : OpStateStorage := (OpStateStorage.new.push tJR aJR).2

/-- Registry after additionally pushing `aPut` under `tPut`. -/
def sIso2 : OpStateStorage := (sIso1.push tPut aPut).2

/-- Witness for C2 at concrete inputs. -/
theorem push_push_pop_isolation_witness :
    popVal sIso2 tJR = .ok (some aJR)
    ∧ popVal (popNext sIso2 tJR) tPut = .ok (some aPut) :=
  push_push_pop_isolation tJR tPut aJR aPut OpStateStorage.new sIso1 sIso2
    (by decide) (by decide) (by decide) (by decide) rfl rfl

/-- Claim C3: `pop` on an id that stores nothing returns absent without
error for the three valid kinds, and fails fast (the `todo!()` panic of the
`Canceled` arm) rather than silently resolving to nothing on a
`Canceled`-kind id. -/
theorem pop_never_pushed (id : Transaction) (s : OpStateStorage)
    (h1 : s.join_ring id = none) (h2 : s.put id = none) (h3 : s.get id = none) :
    (id.tx_type ≠ .Canceled → popVal s id = .ok none)
    ∧ (id.tx_type = .Canceled → popVal s id = .error .panicked) := by
  obtain ⟨i, k⟩ := id
  cases k <;>
    simp [popVal, OpStateStorage.pop, Transaction.tx_type, hmRemove,
      Except.map, h1, h2, h3]

/-- Witness for C3 at concrete inputs: an empty registry, one id of each
behaviour class. -/
theorem pop_never_pushed_witness :
    popVal OpStateStorage.new tJR = .ok none
    ∧ popVal OpStateStorage.new tCan = .error .panicked :=
  ⟨(pop_never_pushed tJR OpStateStorage.new rfl rfl rfl).1 (by decide),
   (pop_never_pushed tCan OpStateStorage.new rfl rfl rfl).2 rfl⟩

/-- Claim C9: `pop` yields a stored operation at most once: after a `pop`
returns the stored value, a second `pop` of the same id (with no intervening
push) observes absent. -/
theorem pop_yields_at_most_once (id : Transaction) (s s2 : OpStateStorage)
    (op : Operation) (h : s.pop id = .ok (some op, s2)) :
    popVal s2 id = .ok none := by
  obtain ⟨i, k⟩ := id
  cases k
  case Canceled => simp [OpStateStorage.pop, Transaction.tx_type] at h
  all_goals
    simp only [OpStateStorage.pop, Transaction.tx_type, hmRemove,
      Except.ok.injEq, Prod.mk.injEq] at h
    obtain ⟨hval, hs⟩ := h
    subst hs
    simp [popVal, OpStateStorage.pop, Transaction.tx_type, hmRemove, Except.map]

/-- Registry holding exactly `aJR` under `tJR`. -/
def sOne : OpStateStorage := (OpStateStorage.new.push tJR aJR).2

/-- `sOne` after popping `tJR`. -/
def sOneAfter : OpStateStorage := popNext sOne tJR

/-- Witness for C9 at concrete inputs. -/
theorem pop_yields_at_most_once_witness : popVal sOneAfter tJR = .ok none :=
  pop_yields_at_most_once tJR sOne sOneAfter aJR rfl

/-- Claim C10: `push` is atomic on failure: when it returns an
`IncorrectTxType` error the registry is unchanged, so every subsequent `pop`
returns what it would have returned before the failed push. -/
theorem push_error_leaves_registry_unchanged (id : Transaction)
    (op : Operation) (s : OpStateStorage) (a b : TransactionTypeId)
    (h : (s.push id op).1 = .error (.IncorrectTxType a b)) :
    (s.push id op).2 = s ∧ ∀ j, (s.push id op).2.pop j = s.pop j := by
  have h2 : (s.push id op).2 = s := by
    cases op <;> dsimp [OpStateStorage.push] at h ⊢ <;> split at h <;>
      simp_all
  exact ⟨h2, fun j => by rw [h2]⟩

/-- Witness for C10 at the concrete failing input of C1. -/
theorem push_error_leaves_registry_unchanged_witness :
    (OpStateStorage.new.push tGet aGet).2 = OpStateStorage.new :=
  (push_error_leaves_registry_unchanged tGet aGet OpStateStorage.new
    .JoinRing .Get rfl).1

/-- Claim C4: a `send` to a target whose location is unresolved fails with
`ConnError::LocationUnknown` and leaves the fabric (and hence the peer's
transport state) unchanged: no envelope is placed. -/
theorem send_unknown_location_no_envelope (tr : InMemoryTransport)
    (target : PeerKeyLocation) (msg : Message) (f : Fabric)
    (h : target.location = none) :
    connSend tr target msg f = (.connErr .LocationUnknown, f) := by
  simp [connSend, h]

/-- Sending peer of the concrete transport scenarios (own location 10). -/
def trX : InMemoryTransport := ⟨⟨0⟩, some ⟨10⟩, true⟩

/-- Receiving peer reference with a resolved location 20. -/
def targetY : PeerKeyLocation := ⟨⟨1⟩, some ⟨20⟩⟩

/-- A peer reference whose location is still unresolved. -/
def targetNone : PeerKeyLocation := ⟨⟨3⟩, none⟩

/-- The concrete message in transit in the transport scenarios. -/
def m7 : Message := ⟨⟨7, .Put⟩, 42⟩

/-- The shared channel as `NETWORK_WIRES` creates it: empty, connected,
unbounded. -/
def fab0 : Fabric := ⟨[], true, none⟩

/-- Witness for C4 at concrete inputs. -/
theorem send_unknown_location_no_envelope_witness :
    connSend trX targetNone m7 fab0 = (.connErr .LocationUnknown, fab0) :=
  send_unknown_location_no_envelope trX targetNone m7 fab0 rfl

/-- The shared channel after permanent closure. -/
def fabClosed : Fabric := ⟨[], false, none⟩

/-- A bounded shared channel at capacity. -/
def fabFull : Fabric := ⟨[], true, some 0⟩

/-- Claim C5 counterexample: with the shared channel closed and a resolved
target location, `send` reports success (`Ok(())`) to the caller — the
`Disconnected` branch of `InMemoryTransport::send` only logs — so no
transport error reaches the calling operation handler as a result value. -/
theorem send_closed_channel_reports_success :
    fabClosed.connected = false
    ∧ connSend trX targetY m7 fabClosed = (SendOutcome.ok, fabClosed) :=
  ⟨rfl, rfl⟩

/-- Claim C5 as amended: with a resolved target location, a closed shared
channel makes `send` log and report success with no envelope placed, and a
capacity-exceeded channel makes the transport panic; in neither case does a
transport error surface to the caller as a result value. -/
theorem send_transport_failure_amended (tr : InMemoryTransport)
    (target : PeerKeyLocation) (msg : Message) (f : Fabric) (loc : Location)
    (hloc : target.location = some loc) :
    (f.connected = false → connSend tr target msg f = (.ok, f))
    ∧ (∀ c, f.connected = true → f.capacity = some c → c ≤ f.queue.length →
        connSend tr target msg f = (.panicked, f)) := by
  constructor
  · intro h
    simp [connSend, hloc, InMemoryTransport.send, trySend, h]
  · intro c hconn hc hlen
    simp [connSend, hloc, InMemoryTransport.send, trySend, hconn, hc, hlen]

/-- Witness for C5 (amended) at concrete inputs: a closed channel and a
full bounded channel. -/
theorem send_transport_failure_amended_witness :
    connSend trX targetY m7 fabClosed = (.ok, fabClosed)
    ∧ connSend trX targetY m7 fabFull = (.panicked, fabFull) :=
  ⟨(send_transport_failure_amended trX targetY m7 fabClosed ⟨20⟩ rfl).1 rfl,
   (send_transport_failure_amended trX targetY m7 fabFull ⟨20⟩ rfl).2 0
     rfl rfl (by decide)⟩

/-- The envelope `connSend trX targetY m7` actually places on the fabric:
its `origin_loc` holds the TARGET's coordinate (20), not the sender's own
coordinate (10). -/
def envXY : MessageOnTransit := ⟨⟨0⟩, some ⟨20⟩, ⟨1⟩, encode m7⟩

/-- Claim C6: the spec says a successfully sent envelope carries
`origin_location` = the sender's own coordinate. In the code,
`MemoryConnManager::send` passes `target.location` as the `location`
parameter of `InMemoryTransport::send`, which stores it as `origin_loc`; at
a concrete input where sender (10) and target (20) coordinates differ, the
envelope's `origin_loc` equals the target's location and differs from the
sender's. `origin` and `target` themselves are as the spec says. -/
theorem send_envelope_origin_loc_is_target_loc :
    (connSend trX targetY m7 fab0).2.queue = [envXY]
    ∧ envXY.origin = trX.interface_peer
    ∧ envXY.target = targetY.peer
    ∧ envXY.origin_loc = targetY.location
    ∧ envXY.origin_loc ≠ trX.location :=
  ⟨rfl, rfl, rfl, rfl, by decide⟩

/-- Key of sender peer X in the delivery scenarios. -/
def xKey : PeerKey := ⟨0⟩

/-- Key of the intended receiver peer Y. -/
def yKey : PeerKey := ⟨1⟩

/-- Key of a third peer Z, neither sender nor addressee. -/
def zKey : PeerKey := ⟨2⟩

/-- The initial world: freshly created shared channel, all per-peer queues
empty. -/
def w0 : World := ⟨fab0, fun _ => [], fun _ => []⟩

/-- The world after X successfully sends `m7` to Y: exactly one envelope
(`envXY`) is on the shared channel. -/
def w1 : World := { w0 with fabric := (connSend trX targetY m7 fab0).2 }

/-- Every scheduled iteration leaves the completely empty world unchanged:
nothing is in flight, so the polling tasks and `recv` find nothing. -/
theorem applyStep_empty_world (st : Step) : applyStep st w0 = w0 := by
  cases st <;> rfl

/-- Runs from the completely empty world stay there. -/
theorem runSched_empty_world (sched : List Step) : runSched sched w0 = w0 := by
  induction sched with
  | nil => rfl
  | cons st rest ih =>
      show runSched rest (applyStep st w0) = w0
      rw [applyStep_empty_world, ih]

/-- Claim C7: the spec says a message successfully sent by X to Y is
eventually observed by Y's `recv()`. The shared channel hands each envelope
to exactly one peer's filter task, and a non-matching task drops it; in the
execution where Z's filter task polls first, the envelope addressed to Y is
consumed and discarded — the world returns to the pristine empty state —
and under every subsequent schedule of filter, drain and `recv` iterations
Y's decoded inbound queue stays empty, so Y's `recv` never observes `m7`. -/
theorem sent_message_dropped_by_other_peer :
    (connSend trX targetY m7 fab0).1 = SendOutcome.ok
    ∧ w1.fabric.queue = [envXY]
    ∧ envXY.target = yKey
    ∧ decode envXY.data = some m7
    ∧ zKey ≠ yKey
    ∧ filterStep zKey w1 = w0
    ∧ ∀ sched : List Step,
        (runSched sched (filterStep zKey w1)).msg_queue yKey = [] := by
  refine ⟨rfl, rfl, rfl, rfl, by decide, rfl, ?_⟩
  intro sched
  have h : filterStep zKey w1 = w0 := rfl
  rw [h, runSched_empty_world]
  rfl

/-- Claim C8 counterexample: receipt sets are not jointly complete. With
the single envelope `envXY` (addressed to Y) on the fabric, one iteration
of Z's filter task consumes it and restores the completely empty world: the
envelope ends up in no peer's inbound queue at all. -/
theorem cross_delivery_not_jointly_complete :
    w1.fabric.queue = [envXY]
    ∧ envXY.target = yKey
    ∧ zKey ≠ yKey
    ∧ filterStep zKey w1 = w0
    ∧ w0.fabric.queue = []
    ∧ w0.msg_stack_queue = (fun _ => [])
    ∧ w0.msg_queue = (fun _ => []) :=
  ⟨rfl, rfl, by decide, rfl, rfl, rfl, rfl⟩

/-- No cross delivery: every envelope in a peer's transport-inbound stack is
addressed to that peer. -/
def stackInv (w : World) : Prop :=
  ∀ p e, e ∈ w.msg_stack_queue p → e.target = p

/-- One scheduled iteration preserves `stackInv`: a filter task enqueues
only envelopes whose target equals its own peer key, and the drain and
`recv` iterations never add to a stack. -/
theorem stackInv_applyStep (st : Step) (w : World) (h : stackInv w) :
    stackInv (applyStep st w) := by
  cases st with
  | filter p =>
      dsimp [applyStep, filterStep]
      split
      · exact h
      · next e rest hq =>
          split
          · next ht =>
              intro q e2 hmem
              dsimp at hmem
              by_cases hqp : q = p
              · subst hqp
                rw [if_pos rfl] at hmem
                rcases List.mem_cons.mp hmem with h1 | h2
                · subst h1; exact ht
                · exact h q e2 h2
              · rw [if_neg hqp] at hmem
                exact h q e2 hmem
          · next ht =>
              intro q e2 hmem
              exact h q e2 hmem
  | drain p =>
      dsimp [applyStep, drainStep]
      split
      · exact h
      · next e rest hq =>
          split <;>
          · intro q e2 hmem
            dsimp at hmem
            by_cases hqp : q = p
            · subst hqp
              rw [if_pos rfl] at hmem
              exact h q e2 (hq ▸ List.mem_cons_of_mem e hmem)
            · rw [if_neg hqp] at hmem
              exact h q e2 hmem
  | recv _ =>
      dsimp [applyStep, recvStep]
      split
      · exact h
      · intro q e2 hmem
        exact h q e2 hmem

/-- Claim C8 as amended: in every run of the shared-fabric system, each
peer's filtering task enqueues only envelopes whose target equals its own
key, so an envelope addressed to Y never appears in the inbound queue of
any peer Z ≠ Y and per-peer receipt sets are pairwise disjoint (joint
completeness, refuted by the counterexample, is dropped). -/
theorem filter_enqueues_only_own_target (sched : List Step) (w : World)
    (h : stackInv w) : stackInv (runSched sched w) := by
  induction sched generalizing w with
  | nil => exact h
  | cons st rest ih =>
      show stackInv (runSched rest (applyStep st w))
      exact ih (applyStep st w) (stackInv_applyStep st w h)

/-- Witness for C8 (amended) at a concrete run: the world holding `envXY`,
scheduled so that Y's filter task takes the envelope. -/
theorem filter_enqueues_only_own_target_witness :
    stackInv (runSched [Step.filter yKey] w1) :=
  filter_enqueues_only_own_target [Step.filter yKey] w1
    (fun _ e hmem => absurd hmem (List.not_mem_nil e))
